import Mathlib

/-!
Verification of the availability-and-pricing endpoint of the Livin Popayán API
(`src/api.py`) against its natural-language specification.

The single Flask handler `check_availability_and_price` is shallowly embedded:

* decimal columns (`price_per_night`, `monthly_rate`) become `Option ℚ`;
* calendar dates become proleptic-Gregorian day ordinals (`ℤ`), computed by a
  parser/ordinal pair that mirrors `datetime.strptime(s, "%Y-%m-%d")` and
  Python date subtraction;
* the SQL query is modelled relationally: a LEFT JOIN producing
  `Property × Option PricingRule` rows, a WHERE clause evaluated in SQL
  three-valued (Kleene) logic, a NOT IN subquery over bookings, and an
  ORDER BY id realised by a stable insertion sort;
* the request/response cycle, including Python truthiness of the parameter
  check and the broad `except` clause, becomes an `Exec` record that also
  tracks whether the database connection was acquired, released, and whether
  the query was attempted, with explicit failure-injection flags for the
  connect and execute steps.
-/

namespace LivinAPI

attribute [local semireducible] Rat.add Rat.mul Rat.inv Rat.sub

/-! ### SQL three-valued logic -/

/-- Truth values of SQL conditions: TRUE, FALSE or UNKNOWN (NULL). -/
inductive SQLB where
  | tt
  | ff
  | unk
deriving DecidableEq

/-- Embed a two-valued boolean into SQL truth values. -/
def SQLB.ofBool : Bool → SQLB
  | true => .tt
  | false => .ff

/-- Kleene conjunction, as used by SQL `AND`. -/
def SQLB.and : SQLB → SQLB → SQLB
  | .ff, _ => .ff
  | _, .ff => .ff
  | .tt, .tt => .tt
  | _, _ => .unk

/-- Kleene disjunction, as used by SQL `OR`. -/
def SQLB.or : SQLB → SQLB → SQLB
  | .tt, _ => .tt
  | _, .tt => .tt
  | .ff, .ff => .ff
  | _, _ => .unk

/-- SQL `<=` on nullable integers: UNKNOWN when either side is NULL. -/
def sqlLeZ : Option ℤ → Option ℤ → SQLB
  | some a, some b => SQLB.ofBool (decide (a ≤ b))
  | _, _ => .unk

/-- SQL `=` on nullable integers: UNKNOWN when either side is NULL. -/
def sqlEqZ : Option ℤ → Option ℤ → SQLB
  | some a, some b => SQLB.ofBool (decide (a = b))
  | _, _ => .unk

/-! ### Calendar dates

`datetime.strptime(s, "%Y-%m-%d")` and `(end_date - start_date).days` are
modelled by an ISO-format parser producing year/month/day triples and the
proleptic Gregorian ordinal (as in Python `date.toordinal`). -/

/-- A parsed calendar date. -/
structure Date where
  year : ℕ
  month : ℕ
  day : ℕ
deriving DecidableEq

/-- Gregorian leap-year test. -/
def isLeapYear (y : ℕ) : Bool :=
  (y % 4 == 0 && y % 100 != 0) || y % 400 == 0

/-- Number of days in month `m` of year `y`. -/
def daysInMonth (y m : ℕ) : ℕ :=
  if m == 2 then (if isLeapYear y then 29 else 28)
  else if m == 4 || m == 6 || m == 9 || m == 11 then 30
  else 31

/-- Days in year `y` before the first day of month `m`. -/
def daysBeforeMonth (y m : ℕ) : ℕ :=
  (List.range (m - 1)).foldl (fun acc i => acc + daysInMonth y (i + 1)) 0

/-- Proleptic Gregorian ordinal of a date, with 0001-01-01 as day 1
(Python `date.toordinal`). -/
def Date.toOrdinal (dt : Date) : ℤ :=
  (((dt.year - 1) * 365 + (dt.year - 1) / 4 - (dt.year - 1) / 100 + (dt.year - 1) / 400
    + daysBeforeMonth dt.year dt.month + dt.day : ℕ) : ℤ)

/-- Split a character list at every occurrence of `sep`. -/
def splitOnChar (sep : Char) : List Char → List (List Char)
  | [] => [[]]
  | c :: cs =>
    let rest := splitOnChar sep cs
    if c = sep then [] :: rest
    else
      match rest with
      | [] => [[c]]
      | r :: rs => (c :: r) :: rs

/-- Parse a nonempty all-digit character list as a natural number. -/
def parseNatDigits (cs : List Char) : Option ℕ :=
  if cs ≠ [] ∧ cs.all (·.isDigit) then
    some (cs.foldl (fun n c => 10 * n + (c.toNat - 48)) 0)
  else none

/-- Parse an ISO `YYYY-MM-DD` string into a valid calendar date, as
`datetime.strptime(s, "%Y-%m-%d")` does; `none` models the `ValueError`
raised on malformed input. -/
def parseDate (s : String) : Option Date :=
  match splitOnChar '-' s.data with
  | [ys, ms, ds] =>
    match parseNatDigits ys, parseNatDigits ms, parseNatDigits ds with
    | some y, some m, some d =>
      if 1 ≤ y ∧ y ≤ 9999 ∧ 1 ≤ m ∧ m ≤ 12 ∧ 1 ≤ d ∧ d ≤ daysInMonth y m then
        some ⟨y, m, d⟩
      else none
    | _, _, _ => none
  | _ => none

/-- Parse an optionally signed decimal integer, as Flask's `type=int`
conversion (Python `int(s)`) does; `none` models a failed conversion,
which Flask replaces by the default `None`. -/
def parseInt (s : String) : Option ℤ :=
  match s.data with
  | '-' :: cs => (parseNatDigits cs).map (fun n => -(n : ℤ))
  | '+' :: cs => (parseNatDigits cs).map (fun n => (n : ℤ))
  | cs => (parseNatDigits cs).map (fun n => (n : ℤ))

/-! ### Data model -/

/-- A row of the `properties` relation. -/
structure Property where
  id : ℤ
  name : String
  description : String
  num_bedrooms : ℤ
  min_stay_nights : ℤ
  pricing_category : String
deriving DecidableEq

/-- A row of the `pricing_rules` relation; the two rate columns are nullable. -/
structure PricingRule where
  category : String
  price_per_night : Option ℚ
  monthly_rate : Option ℚ
  min_nights : ℤ
  max_nights : ℤ
deriving DecidableEq

/-- A row of the `bookings` relation; dates stored as day ordinals. -/
structure Booking where
  property_id : ℤ
  start_date : ℤ
  end_date : ℤ
deriving DecidableEq

/-- The three read-only relations the query consumes. -/
structure Database where
  properties : List Property
  pricing_rules : List PricingRule
  bookings : List Booking

/-- A row of the result set
`(p.id, p.name, p.description, pr.price_per_night, pr.monthly_rate)`. -/
structure Row where
  id : ℤ
  name : String
  description : String
  price_per_night : Option ℚ
  monthly_rate : Option ℚ
deriving DecidableEq

/-! ### The availability query -/

/-- Pricing-rule rows matching the join condition
`p.pricing_category = pr.category`. -/
def matchingRules (db : Database) (p : Property) : List PricingRule :=
  db.pricing_rules.filter (fun r => r.category == p.pricing_category)

/-- Result of `properties LEFT JOIN pricing_rules`: a property with no
matching rule still yields one row, null-extended on the rule side. -/
def leftJoinRows (db : Database) : List (Property × Option PricingRule) :=
  db.properties.flatMap (fun p =>
    match matchingRules db p with
    | [] => [(p, none)]
    | ms => ms.map (fun r => (p, some r)))

/-- The `NOT IN` subquery: property ids having a booking with
`b.start_date < %s AND b.end_date > %s`, the parameters being the requested
end date then the requested start date (in that order, as in the source). -/
def bookingExclusions (db : Database) (reqStart reqEnd : ℤ) : List ℤ :=
  (db.bookings.filter
      (fun b => decide (b.start_date < reqEnd) && decide (b.end_date > reqStart))).map
    (fun b => b.property_id)

/-- Nullable `pr.min_nights` column of a left-joined row. -/
def joinedMinNights (opr : Option PricingRule) : Option ℤ :=
  opr.map (fun r => r.min_nights)

/-- Nullable `pr.max_nights` column of a left-joined row. -/
def joinedMaxNights (opr : Option PricingRule) : Option ℤ :=
  opr.map (fun r => r.max_nights)

/-- Nullable `pr.monthly_rate` column of a left-joined row. -/
def joinedMonthlyRate (opr : Option PricingRule) : Option ℚ :=
  opr.bind (fun r => r.monthly_rate)

/-- The WHERE clause of the query, evaluated in SQL three-valued logic on one
left-joined row:
`p.num_bedrooms = %s AND p.min_stay_nights <= %s AND
((pr.min_nights <= %s AND pr.max_nights >= %s AND pr.monthly_rate IS NULL)
 OR (%s >= 30 AND pr.monthly_rate IS NOT NULL AND pr.min_nights >= 30))
AND p.id NOT IN (...)`. -/
def whereClause (db : Database) (nb nights reqStart reqEnd : ℤ)
    (p : Property) (opr : Option PricingRule) : SQLB :=
  (sqlEqZ (some p.num_bedrooms) (some nb)).and
    ((sqlLeZ (some p.min_stay_nights) (some nights)).and
      ((((sqlLeZ (joinedMinNights opr) (some nights)).and
            ((sqlLeZ (some nights) (joinedMaxNights opr)).and
              (SQLB.ofBool (joinedMonthlyRate opr).isNone))).or
          ((sqlLeZ (some 30) (some nights)).and
            ((SQLB.ofBool (joinedMonthlyRate opr).isSome).and
              (sqlLeZ (some 30) (joinedMinNights opr))))).and
        (SQLB.ofBool (!(bookingExclusions db reqStart reqEnd).contains p.id))))

/-- Projection of a left-joined row onto the SELECT list. -/
def rowOf (p : Property) (opr : Option PricingRule) : Row :=
  { id := p.id
    name := p.name
    description := p.description
    price_per_night := opr.bind (fun r => r.price_per_night)
    monthly_rate := opr.bind (fun r => r.monthly_rate) }

/-- Comparison used by `ORDER BY p.id`. -/
def rowLe (a b : Row) : Prop := a.id ≤ b.id

instance : DecidableRel rowLe := fun a b => inferInstanceAs (Decidable (a.id ≤ b.id))

instance : IsTotal Row rowLe := ⟨fun a b => le_total a.id b.id⟩

instance : IsTrans Row rowLe := ⟨fun _ _ _ h1 h2 => le_trans h1 h2⟩

/-- The full availability query: LEFT JOIN, WHERE (a row is kept only when the
clause evaluates to TRUE), SELECT projection and `ORDER BY p.id` (stable). -/
def sqlQuery (db : Database) (nb nights reqStart reqEnd : ℤ) : List Row :=
  List.insertionSort rowLe
    (((leftJoinRows db).filter
        (fun pr => decide (whereClause db nb nights reqStart reqEnd pr.1 pr.2 = SQLB.tt))).map
      (fun pr => rowOf pr.1 pr.2))

/-! ### The price calculator -/

/-- The pre-rounding total computed per candidate row: the monthly path when
`stay_duration_nights >= 30 and monthly_rate is not None` (whole months plus
prorated remaining days), else the nightly path when
`price_per_night is not None`, else the initial `Decimal('0')`. -/
def computeTotal (nights : ℤ) (price_per_night monthly_rate : Option ℚ) : ℚ :=
  if 30 ≤ nights ∧ monthly_rate ≠ none then
    let monthly_rate_dec : ℚ := monthly_rate.getD 0
    let num_months : ℤ := nights / 30
    let remaining_days : ℤ := nights % 30
    let base : ℚ := (num_months : ℚ) * monthly_rate_dec
    if 0 < remaining_days then
      base + (remaining_days : ℚ) * (monthly_rate_dec / 30)
    else base
  else if price_per_night ≠ none then
    (nights : ℚ) * price_per_night.getD 0
  else 0

/-- Rounding to an integer number of currency units with
`rounding=ROUND_HALF_UP` (ties away from zero), as
`Decimal.quantize(Decimal('1'), rounding=ROUND_HALF_UP)`. -/
def roundHalfUp (q : ℚ) : ℤ :=
  if 0 ≤ q then ⌊q + 1 / 2⌋ else -⌊-q + 1 / 2⌋

/-- An entry of the JSON result list. -/
structure PricedResult where
  property_id : ℤ
  name : String
  description : String
  monthly_rate : Option ℚ
  total_price : ℤ
deriving DecidableEq

/-- The dictionary appended for one candidate row, with the Python-truthiness
passthrough `float(monthly_rate) if monthly_rate else None` (a NULL or zero
monthly rate becomes `None`) and the half-up rounded total. -/
def mkResult (nights : ℤ) (r : Row) : PricedResult :=
  { property_id := r.id
    name := r.name
    description := r.description
    monthly_rate := if r.monthly_rate.getD 0 ≠ 0 then r.monthly_rate else none
    total_price := roundHalfUp (computeTotal nights r.price_per_night r.monthly_rate) }

/-- The result-assembly loop: one appended entry per fetched row whose
pre-rounding total is strictly positive. -/
def buildResults (nights : ℤ) (rows : List Row) : List PricedResult :=
  rows.filterMap (fun r =>
    if 0 < computeTotal nights r.price_per_night r.monthly_rate then
      some (mkResult nights r)
    else none)

/-! ### The request handler -/

/-- The three query-string parameters, each possibly absent. -/
structure Request where
  start_date : Option String
  end_date : Option String
  num_bedrooms : Option String

/-- The three observable response shapes: a JSON list (HTTP 200), the
missing-parameters error (HTTP 400), and the broad `except` error (HTTP 500). -/
inductive Response where
  | ok (results : List PricedResult)
  | clientError
  | serverError
deriving DecidableEq

/-- One execution of the handler: its response plus the connection/query
events that occurred (connection acquired, connection released, query
execution reached). -/
structure Exec where
  response : Response
  connOpened : Bool
  connClosed : Bool
  queryStarted : Bool
deriving DecidableEq

/-- Python truthiness of an optional string: `not s` holds for a missing or
empty value. -/
def pyFalsyStr : Option String → Bool
  | none => true
  | some s => s.data.isEmpty

/-- Python truthiness of an optional integer: `not n` holds for a missing
value and for `0`. -/
def pyFalsyInt : Option ℤ → Bool
  | none => true
  | some n => n == 0

/-- The handler `check_availability_and_price`. `connectFails` injects a
failure into `get_db_connection()`, `queryFails` into `cur.execute(...)`;
either lands in the broad `except` clause, which returns the 500 response
without any `finally` cleanup. -/
def check_availability_and_price (req : Request) (db : Database)
    (connectFails queryFails : Bool) : Exec :=
  let num_bedrooms : Option ℤ := req.num_bedrooms.bind parseInt
  if pyFalsyStr req.start_date || pyFalsyStr req.end_date || pyFalsyInt num_bedrooms then
    { response := .clientError, connOpened := false, connClosed := false, queryStarted := false }
  else
    match parseDate (req.start_date.getD "") with
    | none =>
      { response := .serverError, connOpened := false, connClosed := false, queryStarted := false }
    | some start_date =>
      match parseDate (req.end_date.getD "") with
      | none =>
        { response := .serverError, connOpened := false, connClosed := false,
          queryStarted := false }
      | some end_date =>
        let stay_duration_nights : ℤ := end_date.toOrdinal - start_date.toOrdinal
        if stay_duration_nights < 4 then
          { response := .ok [], connOpened := false, connClosed := false, queryStarted := false }
        else if connectFails then
          { response := .serverError, connOpened := false, connClosed := false,
            queryStarted := false }
        else if queryFails then
          { response := .serverError, connOpened := true, connClosed := false,
            queryStarted := true }
        else
          let rows := sqlQuery db (num_bedrooms.getD 0) stay_duration_nights
            start_date.toOrdinal end_date.toOrdinal
          { response := .ok (buildResults stay_duration_nights rows), connOpened := true,
            connClosed := true, queryStarted := true }

/-! ### The query as the specification words it

Section 4.2 of the specification describes the same candidate computation but
asserts that, the join being an outer join, "properties without any matching
rule row are still considered". `specPass` renders that reading as a
two-valued predicate per left-joined row, with the same three property-level
and booking conditions and the same two rule branches; a null-extended row
(no matching rule) is kept. This definition follows the specification's
words and exists to be compared against `whereClause`/`sqlQuery`, which are
translated from the source. -/

/-- Candidate predicate following the specification's words (see above). -/
def specPass (db : Database) (nb nights reqStart reqEnd : ℤ)
    (p : Property) (opr : Option PricingRule) : Bool :=
  decide (p.num_bedrooms = nb) &&
    (decide (p.min_stay_nights ≤ nights) &&
      ((match opr with
        | none => true
        | some r =>
            (decide (r.min_nights ≤ nights) &&
              (decide (nights ≤ r.max_nights) && r.monthly_rate.isNone)) ||
            (decide (30 ≤ nights) &&
              (r.monthly_rate.isSome && decide (30 ≤ r.min_nights)))) &&
        !(bookingExclusions db reqStart reqEnd).contains p.id))

/-- The availability query as the specification words it: identical to
`sqlQuery` except that a property with no matching pricing-rule row is still
considered (its null-extended row is kept as a candidate). -/
def specQueryOuterJoin (db : Database) (nb nights reqStart reqEnd : ℤ) : List Row :=
  List.insertionSort rowLe
    (((leftJoinRows db).filter
        (fun pr => specPass db nb nights reqStart reqEnd pr.1 pr.2)).map
      (fun pr => rowOf pr.1 pr.2))

/-! ### Concrete data used by counterexamples and witnesses -/

/-- An empty data store. -/
def emptyDb : Database :=
  { properties := [], pricing_rules := [], bookings := [] }

/-- One one-bedroom property with a nightly rule and one booking occupying
`[2025-10-10, 2025-10-20)`. -/
def dbC4 : Database :=
  { properties := [{ id := 1, name := "A", description := "d", num_bedrooms := 1,
                     min_stay_nights := 4, pricing_category := "std" }]
    pricing_rules := [{ category := "std", price_per_night := some 80000,
                        monthly_rate := none, min_nights := 4, max_nights := 15 }]
    bookings := [{ property_id := 1, start_date := Date.toOrdinal ⟨2025, 10, 10⟩,
                   end_date := Date.toOrdinal ⟨2025, 10, 20⟩ }] }

/-- One property whose nightly rate is a tenth of a currency unit. -/
def dbC5 : Database :=
  { properties := [{ id := 1, name := "Tiny", description := "t", num_bedrooms := 1,
                     min_stay_nights := 1, pricing_category := "frac" }]
    pricing_rules := [{ category := "frac", price_per_night := some (1 / 10),
                        monthly_rate := none, min_nights := 1, max_nights := 100 }]
    bookings := [] }

/-- A two-bedroom property whose pricing category matches no rule row. -/
def propC7 : Property :=
  { id := 7, name := "Orphan", description := "o", num_bedrooms := 2,
    min_stay_nights := 4, pricing_category := "nocat" }

/-- Data store containing only `propC7` and no pricing rules. -/
def dbC7 : Database :=
  { properties := [propC7], pricing_rules := [], bookings := [] }

/-- One property whose category is shared by a nightly rule and a monthly
rule that both qualify for a 30-night stay. -/
def db9 : Database :=
  { properties := [{ id := 1, name := "Flex", description := "f", num_bedrooms := 1,
                     min_stay_nights := 4, pricing_category := "flex" }]
    pricing_rules := [{ category := "flex", price_per_night := some 100000,
                        monthly_rate := none, min_nights := 4, max_nights := 40 },
                      { category := "flex", price_per_night := none,
                        monthly_rate := some 2700000, min_nights := 30, max_nights := 365 }]
    bookings := [] }

/-- A candidate row with a nightly rate of 80000 and no monthly rate. -/
def rowC2 : Row :=
  { id := 1, name := "A", description := "d", price_per_night := some 80000,
    monthly_rate := none }

/-! ### Helper lemmas -/

theorem SQLB.ofBool_and (a b : Bool) :
    (SQLB.ofBool a).and (SQLB.ofBool b) = SQLB.ofBool (a && b) := by
  cases a <;> cases b <;> rfl

theorem SQLB.ofBool_or (a b : Bool) :
    (SQLB.ofBool a).or (SQLB.ofBool b) = SQLB.ofBool (a || b) := by
  cases a <;> cases b <;> rfl

theorem SQLB.ofBool_eq_tt (a : Bool) : SQLB.ofBool a = SQLB.tt ↔ a = true := by
  cases a <;> simp [SQLB.ofBool]

/-- On a row where the rule side of the join is present, the WHERE clause is
two-valued and agrees with the specification's candidate predicate. -/
theorem whereClause_some (db : Database) (nb nights reqStart reqEnd : ℤ)
    (p : Property) (r : PricingRule) :
    whereClause db nb nights reqStart reqEnd p (some r) =
      SQLB.ofBool (specPass db nb nights reqStart reqEnd p (some r)) := by
  simp only [whereClause, specPass, sqlEqZ, sqlLeZ, joinedMinNights, joinedMaxNights,
    joinedMonthlyRate, Option.map, Option.bind, SQLB.ofBool_and, SQLB.ofBool_or]

/-- On a null-extended row (property with no matching rule), the WHERE clause
evaluates to UNKNOWN or FALSE, never TRUE, so the row is filtered out. -/
theorem whereClause_none_ne_tt (db : Database) (nb nights reqStart reqEnd : ℤ)
    (p : Property) :
    whereClause db nb nights reqStart reqEnd p none ≠ SQLB.tt := by
  simp only [whereClause, sqlEqZ, sqlLeZ, joinedMinNights, joinedMaxNights,
    joinedMonthlyRate, Option.map, Option.bind, Option.isNone_none, Option.isSome_none]
  generalize decide (p.num_bedrooms = nb) = b1
  generalize decide (p.min_stay_nights ≤ nights) = b2
  generalize decide ((30 : ℤ) ≤ nights) = b3
  generalize (!(bookingExclusions db reqStart reqEnd).contains p.id) = b4
  cases b1 <;> cases b2 <;> cases b3 <;> cases b4 <;> decide

/-- Inserting an element that is below everything in the list puts it at the
head. -/
theorem orderedInsert_eq_cons (a : Row) (m : List Row) (h : ∀ c ∈ m, rowLe a c) :
    List.orderedInsert rowLe a m = a :: m := by
  cases m with
  | nil => rfl
  | cons c cs =>
    simp only [List.orderedInsert]
    rw [if_pos (h c (List.mem_cons_self c cs))]

/-- Filtering commutes with ordered insertion into a sorted list. -/
theorem filter_orderedInsert (q : Row → Bool) (a : Row) :
    ∀ l : List Row, l.Sorted rowLe →
      (List.orderedInsert rowLe a l).filter q =
        if q a then List.orderedInsert rowLe a (l.filter q) else l.filter q := by
  intro l
  induction l with
  | nil =>
    intro _
    cases hqa : q a <;> simp [List.orderedInsert, List.filter, hqa]
  | cons b l ih =>
    intro hs
    have hbl : ∀ x ∈ l, rowLe b x := (List.sorted_cons.mp hs).1
    have hsl : l.Sorted rowLe := (List.sorted_cons.mp hs).2
    have ihs := ih hsl
    by_cases hab : rowLe a b
    · rw [List.orderedInsert_of_le rowLe l hab]
      cases hqa : q a with
      | true =>
        have hmem : ∀ c ∈ (b :: l).filter q, rowLe a c := by
          intro c hc
          have hc2 := List.mem_of_mem_filter hc
          rcases List.mem_cons.mp hc2 with rfl | hcl
          · exact hab
          · exact le_trans hab (hbl c hcl)
        rw [orderedInsert_eq_cons a _ hmem]
        simp [List.filter_cons, hqa]
      | false =>
        simp [List.filter_cons, hqa]
    · have hins : List.orderedInsert rowLe a (b :: l) =
          b :: List.orderedInsert rowLe a l := by
        simp only [List.orderedInsert]
        rw [if_neg hab]
      have hins2 : List.orderedInsert rowLe a (b :: l.filter q) =
          b :: List.orderedInsert rowLe a (l.filter q) := by
        simp only [List.orderedInsert]
        rw [if_neg hab]
      rw [hins]
      simp only [List.filter_cons, ihs]
      cases hqa : q a <;> cases hqb : q b <;>
        simp [List.filter_cons, hqa, hqb, hins2, hab]

/-- Filtering commutes with the stable `ORDER BY` sort. -/
theorem insertionSort_filter (q : Row → Bool) (l : List Row) :
    (List.insertionSort rowLe l).filter q = List.insertionSort rowLe (l.filter q) := by
  induction l with
  | nil => rfl
  | cons a l ih =>
    simp only [List.insertionSort]
    rw [filter_orderedInsert q a _ (List.sorted_insertionSort rowLe l), ih,
      List.filter_cons]
    cases hqa : q a with
    | true => simp [List.insertionSort]
    | false => simp

/-- The result-assembly loop keeps exactly the positively priced rows, in
order, one entry per row. -/
theorem buildResults_eq_map_filter (nights : ℤ) (rows : List Row) :
    buildResults nights rows =
      (rows.filter (fun r =>
          decide (0 < computeTotal nights r.price_per_night r.monthly_rate))).map
        (mkResult nights) := by
  induction rows with
  | nil => rfl
  | cons r rows ih =>
    by_cases h : 0 < computeTotal nights r.price_per_night r.monthly_rate
    · simp [buildResults, List.filterMap_cons, List.filter_cons, h] at ih ⊢
      exact ih
    · simp [buildResults, List.filterMap_cons, List.filter_cons, h] at ih ⊢
      exact ih

/-! ### The claims -/

/-- C1: for stays of at least 4 nights and nullable rates, the pre-rounding
total follows the decision tree in priority order — monthly proration when
`nights >= 30` and a monthly rate is present, else nightly multiplication
when a nightly rate is present, else 0; in particular 35 nights at monthly
rate 900000 give 1050000, and 10 nights at 80000 per night give 800000. -/
theorem claim_C1 :
    (∀ (nights : ℤ) (price_per_night monthly_rate : Option ℚ), 4 ≤ nights →
        computeTotal nights price_per_night monthly_rate =
          if 30 ≤ nights ∧ monthly_rate ≠ none then
            ((nights / 30 : ℤ) : ℚ) * monthly_rate.getD 0
              + ((nights % 30 : ℤ) : ℚ) * (monthly_rate.getD 0 / 30)
          else if price_per_night ≠ none then
            (nights : ℚ) * price_per_night.getD 0
          else 0)
    ∧ computeTotal 35 none (some 900000) = 1050000
    ∧ computeTotal 10 (some 80000) none = 800000 := by
  refine ⟨?_, by decide, by decide⟩
  intro nights ppn mr h4
  simp only [computeTotal]
  by_cases h : 30 ≤ nights ∧ mr ≠ none
  · rw [if_pos h, if_pos h]
    by_cases hr : 0 < nights % 30
    · rw [if_pos hr]
    · rw [if_neg hr]
      have h0 : nights % 30 = 0 := by omega
      simp [h0]
  · rw [if_neg h, if_neg h]

/-- C1 witness: the monthly branch of the decision tree instantiated at
35 nights and monthly rate 900000. -/
theorem claim_C1_witness :
    (4 : ℤ) ≤ 35 ∧
    computeTotal 35 none (some 900000) =
      if 30 ≤ (35 : ℤ) ∧ (some (900000 : ℚ)) ≠ none then
        ((35 / 30 : ℤ) : ℚ) * (some (900000 : ℚ)).getD 0
          + ((35 % 30 : ℤ) : ℚ) * ((some (900000 : ℚ)).getD 0 / 30)
      else if (none : Option ℚ) ≠ none then
        ((35 : ℤ) : ℚ) * (none : Option ℚ).getD 0
      else 0 :=
  ⟨by decide, claim_C1.1 35 none (some 900000) (by decide)⟩

/-- C2: a strictly positive computed total is reported rounded to the
nearest integer currency unit with ties rounded up (away from zero): the
reported value differs from the total by at most one half and never by
exactly minus one half, and every total of the form `X.5` rounds to `X+1`. -/
theorem claim_C2 :
    (∀ (nights : ℤ) (r : Row),
        0 < computeTotal nights r.price_per_night r.monthly_rate →
          buildResults nights [r] = [mkResult nights r] ∧
          (mkResult nights r).total_price =
            roundHalfUp (computeTotal nights r.price_per_night r.monthly_rate))
    ∧ (∀ q : ℚ, 0 < q →
        |((roundHalfUp q : ℤ) : ℚ) - q| ≤ 1 / 2 ∧
          ((roundHalfUp q : ℤ) : ℚ) - q ≠ -(1 / 2))
    ∧ (∀ X : ℤ, 0 ≤ X → roundHalfUp ((X : ℚ) + 1 / 2) = X + 1) := by
  refine ⟨?_, ?_, ?_⟩
  · intro nights r h
    exact ⟨by simp [buildResults, h], rfl⟩
  · intro q hq
    rw [roundHalfUp, if_pos (le_of_lt hq)]
    have h1 : ((⌊q + 1 / 2⌋ : ℤ) : ℚ) ≤ q + 1 / 2 := Int.floor_le _
    have h2 : q + 1 / 2 < (⌊q + 1 / 2⌋ : ℚ) + 1 := Int.lt_floor_add_one _
    constructor
    · rw [abs_le]
      constructor <;> linarith
    · intro hc
      rw [sub_eq_iff_eq_add] at hc
      rw [hc] at h2
      linarith
  · intro X hX
    have hnn : (0 : ℚ) ≤ (X : ℚ) + 1 / 2 := by
      have : (0 : ℚ) ≤ (X : ℚ) := by exact_mod_cast hX
      linarith
    rw [roundHalfUp, if_pos hnn]
    have hcast : (X : ℚ) + 1 / 2 + 1 / 2 = ((X + 1 : ℤ) : ℚ) := by
      push_cast
      ring
    rw [hcast, Int.floor_intCast]

/-- C2 witness: the rounding contract instantiated at a nightly candidate of
total 800000, at the total `5/2`, and at the tie `7 + 1/2`. -/
theorem claim_C2_witness :
    (buildResults 10 [rowC2] = [mkResult 10 rowC2] ∧
      (mkResult 10 rowC2).total_price =
        roundHalfUp (computeTotal 10 rowC2.price_per_night rowC2.monthly_rate)) ∧
    (|((roundHalfUp (5 / 2 : ℚ) : ℤ) : ℚ) - 5 / 2| ≤ 1 / 2 ∧
      ((roundHalfUp (5 / 2 : ℚ) : ℤ) : ℚ) - 5 / 2 ≠ -(1 / 2)) ∧
    roundHalfUp (((7 : ℤ) : ℚ) + 1 / 2) = 7 + 1 :=
  ⟨claim_C2.1 10 rowC2 (by decide), claim_C2.2.1 (5 / 2) (by decide),
    claim_C2.2.2 7 (by decide)⟩

/-- C3 as amended: a request whose parameters pass the presence check (dates
non-empty, bedroom count parsing to a nonzero integer) and whose valid dates
span fewer than 4 nights short-circuits to an empty successful result,
regardless of the data store and of any injected connection or query
failure, without acquiring a connection or issuing a query. The original
claim's "regardless of the requested bedroom count" fails: a parsed bedroom
count of 0 is Python-falsy and is rejected with the 400 client error before
duration validation (see the counterexample). -/
theorem claim_C3 :
    ∀ (db : Database) (connectFails queryFails : Bool) (req : Request) (s e : Date),
      pyFalsyStr req.start_date = false →
      pyFalsyStr req.end_date = false →
      pyFalsyInt (req.num_bedrooms.bind parseInt) = false →
      parseDate (req.start_date.getD "") = some s →
      parseDate (req.end_date.getD "") = some e →
      e.toOrdinal - s.toOrdinal < 4 →
      check_availability_and_price req db connectFails queryFails =
        { response := .ok [], connOpened := false, connClosed := false,
          queryStarted := false } := by
  intro db cf qf req s e h1 h2 h3 h4 h5 h6
  simp [check_availability_and_price, h1, h2, h3, h4, h5, h6]

/-- C3 counterexample: a request with valid dates spanning 2 nights but
`num_bedrooms=0` is answered with the 400 client error, not the empty
successful list the claim promises for every sub-4-night request. -/
theorem claim_C3_counterexample :
    parseDate "2025-01-01" = some ⟨2025, 1, 1⟩ ∧
    parseDate "2025-01-03" = some ⟨2025, 1, 3⟩ ∧
    (Date.toOrdinal ⟨2025, 1, 3⟩) - (Date.toOrdinal ⟨2025, 1, 1⟩) = 2 ∧
    check_availability_and_price
        ⟨some "2025-01-01", some "2025-01-03", some "0"⟩ emptyDb false false =
      { response := .clientError, connOpened := false, connClosed := false,
        queryStarted := false } := by
  decide

/-- C3 witness: a 2-night request with bedroom count 2 short-circuits to the
empty successful response. -/
theorem claim_C3_witness :
    check_availability_and_price
        ⟨some "2025-01-01", some "2025-01-03", some "2"⟩ emptyDb false false =
      { response := .ok [], connOpened := false, connClosed := false,
        queryStarted := false } :=
  claim_C3 emptyDb false false ⟨some "2025-01-01", some "2025-01-03", some "2"⟩
    ⟨2025, 1, 1⟩ ⟨2025, 1, 3⟩ (by decide) (by decide) (by decide) (by decide)
    (by decide) (by decide)

/-- C4: a property is excluded by a booking exactly when
`booking.start_date < requested_end AND booking.end_date > requested_start`;
concretely, the booking `[2025-10-10, 2025-10-20)` excludes its property
from the request `[2025-10-15, 2025-10-25]` but not from the touching
request `[2025-10-20, 2025-10-30]`. -/
theorem claim_C4 :
    (∀ (db : Database) (reqStart reqEnd pid : ℤ),
        pid ∈ bookingExclusions db reqStart reqEnd ↔
          ∃ b ∈ db.bookings, b.property_id = pid ∧
            b.start_date < reqEnd ∧ b.end_date > reqStart)
    ∧ sqlQuery dbC4 1 10 (Date.toOrdinal ⟨2025, 10, 15⟩) (Date.toOrdinal ⟨2025, 10, 25⟩) = []
    ∧ sqlQuery dbC4 1 10 (Date.toOrdinal ⟨2025, 10, 20⟩) (Date.toOrdinal ⟨2025, 10, 30⟩) =
        [{ id := 1, name := "A", description := "d", price_per_night := some 80000,
           monthly_rate := none }] := by
  refine ⟨?_, by decide, by decide⟩
  intro db s e pid
  simp only [bookingExclusions, List.mem_map, List.mem_filter, Bool.and_eq_true,
    decide_eq_true_eq]
  constructor
  · rintro ⟨b, ⟨hb, hse, hes⟩, rfl⟩
    exact ⟨b, hb, rfl, hse, hes⟩
  · rintro ⟨b, hb, rfl, hse, hes⟩
    exact ⟨b, ⟨hb, hse, hes⟩, rfl⟩

/-- C5 as amended: every entry of the result list arises from a candidate
row whose pre-rounding total is strictly positive, and its `total_price` is
the half-up rounding of that total, hence a non-negative integer; it is
strictly positive whenever the computed total is at least half a currency
unit (in particular for whole-unit rates). Candidates with zero or negative
computed total never appear. The original "strictly positive" fails for
totals below half a unit, which round to 0 yet are kept (see the
counterexample). -/
theorem claim_C5 :
    (∀ (nights : ℤ) (rows : List Row) (entry : PricedResult),
        entry ∈ buildResults nights rows →
          0 ≤ entry.total_price ∧
          ∃ r ∈ rows, 0 < computeTotal nights r.price_per_night r.monthly_rate ∧
            entry = mkResult nights r)
    ∧ (∀ (nights : ℤ) (r : Row),
        1 / 2 ≤ computeTotal nights r.price_per_night r.monthly_rate →
          0 < (mkResult nights r).total_price) := by
  constructor
  · intro nights rows entry hmem
    rw [buildResults] at hmem
    rcases List.mem_filterMap.mp hmem with ⟨r, hr, hfr⟩
    by_cases h : 0 < computeTotal nights r.price_per_night r.monthly_rate
    · rw [if_pos h] at hfr
      have hentry : entry = mkResult nights r := (Option.some.inj hfr).symm
      subst hentry
      refine ⟨?_, r, hr, h, rfl⟩
      show 0 ≤ roundHalfUp (computeTotal nights r.price_per_night r.monthly_rate)
      rw [roundHalfUp, if_pos (le_of_lt h)]
      exact Int.le_floor.mpr (by push_cast; linarith)
    · rw [if_neg h] at hfr
      exact absurd hfr (by simp)
  · intro nights r hhalf
    show 0 < roundHalfUp (computeTotal nights r.price_per_night r.monthly_rate)
    rw [roundHalfUp, if_pos (by linarith)]
    have h1 : (1 : ℤ) ≤ ⌊computeTotal nights r.price_per_night r.monthly_rate + 1 / 2⌋ :=
      Int.le_floor.mpr (by push_cast; linarith)
    omega

/-- C5 counterexample: with a nightly rate of a tenth of a currency unit, a
4-night stay computes total `2/5 > 0`, is kept, and is reported with
`total_price = 0` — an entry of the result list whose total price is not
strictly positive. -/
theorem claim_C5_counterexample :
    computeTotal 4 (some (1 / 10)) none = 2 / 5 ∧
    (check_availability_and_price
        ⟨some "2025-01-01", some "2025-01-05", some "1"⟩ dbC5 false false).response =
      Response.ok [{ property_id := 1, name := "Tiny", description := "t",
                     monthly_rate := none, total_price := 0 }] := by
  decide

/-- C5 witness: the amended contract instantiated at the 10-night nightly
candidate of total 800000. -/
theorem claim_C5_witness :
    (0 ≤ (mkResult 10 rowC2).total_price ∧
      ∃ r ∈ [rowC2], 0 < computeTotal 10 r.price_per_night r.monthly_rate ∧
        mkResult 10 rowC2 = mkResult 10 r) ∧
    0 < (mkResult 10 rowC2).total_price :=
  ⟨claim_C5.1 10 [rowC2] (mkResult 10 rowC2) (by decide),
    claim_C5.2 10 rowC2 (by decide)⟩

/-- C6 as amended: a request with a missing (or empty) date, or a
missing/zero/unparsable bedroom count, is rejected with the 400 client
error before any data-store access; a request passing that presence check
whose dates are present but unparsable is rejected by the broad `except`
clause as the 500 server error — still before any data-store access, but it
is a server error, not the client error the original claim asserts (see the
counterexample). -/
theorem claim_C6 :
    (∀ (db : Database) (cf qf : Bool) (req : Request),
        (pyFalsyStr req.start_date || pyFalsyStr req.end_date
          || pyFalsyInt (req.num_bedrooms.bind parseInt)) = true →
        check_availability_and_price req db cf qf =
          { response := .clientError, connOpened := false, connClosed := false,
            queryStarted := false })
    ∧ (∀ (db : Database) (cf qf : Bool) (req : Request),
        (pyFalsyStr req.start_date || pyFalsyStr req.end_date
          || pyFalsyInt (req.num_bedrooms.bind parseInt)) = false →
        (parseDate (req.start_date.getD "") = none ∨
          (∃ s, parseDate (req.start_date.getD "") = some s ∧
            parseDate (req.end_date.getD "") = none)) →
        check_availability_and_price req db cf qf =
          { response := .serverError, connOpened := false, connClosed := false,
            queryStarted := false }) := by
  constructor
  · intro db cf qf req h
    simp [check_availability_and_price, h]
  · intro db cf qf req h hpd
    rcases hpd with hnone | ⟨s, hs, hend⟩
    · simp [check_availability_and_price, h, hnone]
    · simp [check_availability_and_price, h, hs, hend]

/-- C6 counterexample: the unparsable date `2025-13-01` (month 13) with the
other parameters valid produces the 500 server error, not the 400 client
error the claim requires for malformed dates. -/
theorem claim_C6_counterexample :
    parseDate "2025-13-01" = none ∧
    check_availability_and_price
        ⟨some "2025-13-01", some "2025-11-15", some "1"⟩ emptyDb false false =
      { response := .serverError, connOpened := false, connClosed := false,
        queryStarted := false } := by
  decide

/-- C6 witness: a request with a missing start date gets the client error;
a request with an unparsable start date gets the server error; neither
touches the data store. -/
theorem claim_C6_witness :
    check_availability_and_price ⟨none, some "2025-11-15", some "1"⟩ emptyDb false false =
      { response := .clientError, connOpened := false, connClosed := false,
        queryStarted := false } ∧
    check_availability_and_price ⟨some "garbage", some "2025-11-15", some "1"⟩
        emptyDb false false =
      { response := .serverError, connOpened := false, connClosed := false,
        queryStarted := false } :=
  ⟨claim_C6.1 emptyDb false false ⟨none, some "2025-11-15", some "1"⟩ (by decide),
    claim_C6.2 emptyDb false false ⟨some "garbage", some "2025-11-15", some "1"⟩
      (by decide) (Or.inl (by decide))⟩

/-- C7 as amended: the LEFT JOIN does null-extend properties without a
matching rule row, but the WHERE clause's rule-eligibility disjunction
evaluates to UNKNOWN (never TRUE) on such rows, so the query itself excludes
them; since such a row would compute total 0 and be dropped after pricing
anyway, the query as written and the specification's outer-join reading
produce the same final result list on every database and request. -/
theorem claim_C7 :
    ∀ (db : Database) (nb nights reqStart reqEnd : ℤ),
      buildResults nights (sqlQuery db nb nights reqStart reqEnd) =
        buildResults nights (specQueryOuterJoin db nb nights reqStart reqEnd) := by
  intro db nb n s e
  unfold sqlQuery specQueryOuterJoin
  rw [buildResults_eq_map_filter, buildResults_eq_map_filter,
    insertionSort_filter, insertionSort_filter]
  congr 2
  rw [List.filter_map, List.filter_map]
  congr 1
  rw [List.filter_filter, List.filter_filter]
  apply List.filter_congr
  intro x _
  rcases x with ⟨p, opr⟩
  cases opr with
  | none =>
    have h1 : whereClause db nb n s e p none ≠ SQLB.tt := whereClause_none_ne_tt db nb n s e p
    have h2 : computeTotal n (rowOf p none).price_per_night (rowOf p none).monthly_rate = 0 := by
      simp [rowOf, computeTotal]
    simp [Function.comp, h1, h2]
  | some r =>
    have h := whereClause_some db nb n s e p r
    simp [Function.comp, h, SQLB.ofBool_eq_tt]

/-- C7 counterexample: a property whose category matches no rule row passes
the bedroom, minimum-stay and booking conditions yet is absent from the
query result (the WHERE clause evaluates to UNKNOWN on its null-extended
row), whereas the specification's outer-join reading keeps it as a
candidate. -/
theorem claim_C7_counterexample :
    whereClause dbC7 2 10 100 110 propC7 none = SQLB.unk ∧
    sqlQuery dbC7 2 10 100 110 = [] ∧
    specQueryOuterJoin dbC7 2 10 100 110 =
      [{ id := 7, name := "Orphan", description := "o",
         price_per_night := none, monthly_rate := none }] := by
  decide

/-- C8 as amended: when query execution succeeds the connection is released
exactly when it was acquired (success and empty results included, and
validation failures never acquire one), but a query-execution failure
returns the 500 response with the acquired connection still open — the
release is not on the error exit path. The original "released
unconditionally on every exit path" fails (see the counterexample). -/
theorem claim_C8 :
    (∀ (req : Request) (db : Database) (cf : Bool),
        (check_availability_and_price req db cf false).connClosed =
          (check_availability_and_price req db cf false).connOpened)
    ∧ (∀ (req : Request) (db : Database),
        (check_availability_and_price req db false true).connOpened = true →
          (check_availability_and_price req db false true).connClosed = false ∧
          (check_availability_and_price req db false true).response =
            Response.serverError) := by
  constructor
  · intro req db cf
    simp only [check_availability_and_price]
    (repeat' split) <;> first | rfl | simp_all
  · intro req db h
    revert h
    simp only [check_availability_and_price]
    (repeat' split) <;> simp_all

/-- C8 counterexample: a valid 26-night request with an injected query
failure ends with the 500 response, the connection acquired and never
released. -/
theorem claim_C8_counterexample :
    check_availability_and_price
        ⟨some "2025-10-20", some "2025-11-15", some "1"⟩ emptyDb false true =
      { response := .serverError, connOpened := true, connClosed := false,
        queryStarted := true } := by
  decide

/-- C8 witness: the amended contract instantiated at a valid 26-night
request — the release-iff-acquire equation for a successful execution, and
the leak under an injected query failure. -/
theorem claim_C8_witness :
    ((check_availability_and_price
        ⟨some "2025-10-20", some "2025-11-15", some "1"⟩ emptyDb false false).connClosed =
      (check_availability_and_price
        ⟨some "2025-10-20", some "2025-11-15", some "1"⟩ emptyDb false false).connOpened) ∧
    ((check_availability_and_price
        ⟨some "2025-10-20", some "2025-11-15", some "1"⟩ emptyDb false true).connClosed = false ∧
      (check_availability_and_price
        ⟨some "2025-10-20", some "2025-11-15", some "1"⟩ emptyDb false true).response =
        Response.serverError) :=
  ⟨claim_C8.1 ⟨some "2025-10-20", some "2025-11-15", some "1"⟩ emptyDb false,
    claim_C8.2 ⟨some "2025-10-20", some "2025-11-15", some "1"⟩ emptyDb (by decide)⟩

/-- C9: the result assembly produces exactly one priced entry per fetched
row with positive total — no deduplication — and a property whose shared
category matches both a qualifying nightly rule and a qualifying monthly
rule yields two query rows and two result entries with the same
`property_id` and different `total_price` values. -/
theorem claim_C9 :
    (∀ (nights : ℤ) (rows : List Row),
        buildResults nights rows =
          (rows.filter (fun r =>
              decide (0 < computeTotal nights r.price_per_night r.monthly_rate))).map
            (mkResult nights))
    ∧ sqlQuery db9 1 30 100 130 =
        [{ id := 1, name := "Flex", description := "f", price_per_night := some 100000,
           monthly_rate := none },
         { id := 1, name := "Flex", description := "f", price_per_night := none,
           monthly_rate := some 2700000 }]
    ∧ buildResults 30 (sqlQuery db9 1 30 100 130) =
        [{ property_id := 1, name := "Flex", description := "f", monthly_rate := none,
           total_price := 3000000 },
         { property_id := 1, name := "Flex", description := "f",
           monthly_rate := some 2700000, total_price := 2700000 }]
    ∧ (buildResults 30 (sqlQuery db9 1 30 100 130)).map
        (fun entry => entry.property_id) = [1, 1]
    ∧ (buildResults 30 (sqlQuery db9 1 30 100 130)).map
        (fun entry => entry.total_price) = [3000000, 2700000] := by
  refine ⟨buildResults_eq_map_filter, by decide, by decide, by decide, by decide⟩

/-- C10: a request with `num_bedrooms=0`, like one whose bedroom value does
not parse as an integer, is rejected with the same missing-parameters client
error as a request omitting the parameter, before duration validation and
without touching the data store. -/
theorem claim_C10 :
    (∀ (db : Database) (cf qf : Bool) (sd ed : Option String),
        check_availability_and_price ⟨sd, ed, some "0"⟩ db cf qf =
            { response := .clientError, connOpened := false, connClosed := false,
              queryStarted := false } ∧
          check_availability_and_price ⟨sd, ed, none⟩ db cf qf =
            { response := .clientError, connOpened := false, connClosed := false,
              queryStarted := false })
    ∧ (∀ (db : Database) (cf qf : Bool) (sd ed : Option String) (v : String),
        parseInt v = none →
          check_availability_and_price ⟨sd, ed, some v⟩ db cf qf =
            { response := .clientError, connOpened := false, connClosed := false,
              queryStarted := false }) := by
  constructor
  · intro db cf qf sd ed
    constructor
    · have h : pyFalsyInt (parseInt "0") = true := by decide
      simp [check_availability_and_price, h]
    · simp [check_availability_and_price, pyFalsyInt]
  · intro db cf qf sd ed v hv
    have h : pyFalsyInt (parseInt v) = true := by
      simp [hv, pyFalsyInt]
    simp [check_availability_and_price, h]

/-- C10 witness: the unparsable bedroom value `abc` is rejected with the
client error like a missing parameter. -/
theorem claim_C10_witness :
    parseInt "abc" = none ∧
    check_availability_and_price
        ⟨some "2025-10-20", some "2025-10-30", some "abc"⟩ emptyDb false false =
      { response := .clientError, connOpened := false, connClosed := false,
        queryStarted := false } :=
  ⟨by decide, claim_C10.2 emptyDb false false (some "2025-10-20") (some "2025-10-30")
    "abc" (by decide)⟩

end LivinAPI
